import Mathlib

/-!
Verification of the video summarizer pipeline (`app.py`).

The program is a linear Streamlit pipeline: acquire a video (upload or
URL download via yt-dlp), extract its audio track, transcribe it with an
external speech-to-text service, summarize the transcript with a
generative service, translate the summary, synthesize speech, and clean
up the temporary video/audio artifacts in a `finally` region.

Paths are modelled as `List Char` (Python `str`).  External calls and
filesystem facts are modelled as oracle values supplied in environment
structures; a Python exception is a pair of a class name and a message.
-/

/-- Outcome of a Python expression that may raise: a value, or an
exception carrying its class name and its `str(e)` message. -/
inductive Exc (α : Type) where
  | ok (a : α)
  | exn (cls : String) (msg : String)
deriving DecidableEq, Repr

/-- Fuel-driven model of Python `str.replace(old, new)` on `List Char`:
scan left to right, replace each non-overlapping occurrence of `old` by
`new`.  The fuel bounds the recursion; `pyReplace` supplies fuel equal to
the length of the subject string, which is always sufficient. -/
def pyReplaceF : Nat → List Char → List Char → List Char → List Char
  | 0, _, _, s => s
  | f + 1, old, new, s =>
    match s with
    | [] => []
    | c :: rest =>
      if old ≠ [] ∧ old <+: (c :: rest) then
        new ++ pyReplaceF f old new ((c :: rest).drop old.length)
      else
        c :: pyReplaceF f old new rest

/-- Python `s.replace(old, new)` for nonempty `old` (the program only
replaces the nonempty patterns `".webm"` and `".mp4"`). -/
def pyReplace (s old new : List Char) : List Char :=
  pyReplaceF s.length old new s

/-- The extension `".webm"` as a character list. -/
def webm : List Char := ".webm".data

/-- The extension `".mp4"` as a character list. -/
def mp4 : List Char := ".mp4".data

/-- The extension `".mp3"` as a character list. -/
def mp3 : List Char := ".mp3".data

/-- The destination audio path computed by `extract_audio` (app.py,
lines 46-53): `endswith(".webm")` → `replace(".webm", ".mp3")`;
`endswith(".mp4")` → `replace(".mp4", ".mp3")`; otherwise append
`".mp3"`.  Python `str.replace` rewrites every occurrence. -/
def audioPathFor (p : List Char) : List Char :=
  if webm <:+ p then pyReplace p webm mp3
  else if mp4 <:+ p then pyReplace p mp4 mp3
  else p ++ mp3

/-- Modelled from the spec's words (for comparison with `audioPathFor`):
"a path with `.mp3` replacing the suffix" — replace only the final
extension occurrence, i.e. drop the suffix and append `".mp3"`. -/
def audioPathSpecC2 (p : List Char) : List Char :=
  if webm <:+ p then p.take (p.length - webm.length) ++ mp3
  else if mp4 <:+ p then p.take (p.length - mp4.length) ++ mp3
  else p ++ mp3

/-- Environment of one `extract_audio` call: does the video file exist
(app.py line 40), and what do `VideoFileClip`/`write_audiofile` do. -/
structure ExtractEnv where
  videoExists : Bool
  clipOpen : Exc Unit
  writeAudio : Exc Unit
deriving DecidableEq, Repr

/-- Observable trace of one `extract_audio` call: the returned audio
path or the escaping exception, whether `VideoFileClip` was invoked, and
whether an audio file was written. -/
structure ExtractTrace where
  result : Exc (List Char)
  clipOpened : Bool
  audioWritten : Bool
deriving DecidableEq, Repr

/-- `extract_audio` (app.py lines 39-62): raise `FileNotFoundError`
when the path does not exist, else decode the video, pick the
destination path by `audioPathFor`, and write the audio file. -/
def extract_audio (env : ExtractEnv) (video_path : List Char) : ExtractTrace :=
  if env.videoExists = false then
    { result := Exc.exn "FileNotFoundError"
        ("Video file not found: " ++ String.mk video_path),
      clipOpened := false, audioWritten := false }
  else
    match env.clipOpen with
    | Exc.exn c m => { result := Exc.exn c m, clipOpened := true, audioWritten := false }
    | Exc.ok _ =>
      match env.writeAudio with
      | Exc.exn c m => { result := Exc.exn c m, clipOpened := true, audioWritten := false }
      | Exc.ok _ =>
        { result := Exc.ok (audioPathFor video_path),
          clipOpened := true, audioWritten := true }

/-- Environment of one `transcribe_audio` call: what `open(audio_path)`
does, and what the Groq transcription call's `.text` yields. -/
structure TranscribeEnv where
  openAudio : Exc Unit
  api : Exc String
deriving DecidableEq, Repr

/-- The `try` body of `transcribe_audio` (app.py lines 66-76): open the
audio file, then call the external transcription service. -/
def transcribe_body (env : TranscribeEnv) : Exc String :=
  match env.openAudio with
  | Exc.exn c m => Exc.exn c m
  | Exc.ok _ => env.api

/-- `transcribe_audio` (app.py lines 65-78): the `except Exception`
handler turns any exception from the body into the inline error string. -/
def transcribe_audio (env : TranscribeEnv) : Exc String :=
  match transcribe_body env with
  | Exc.ok t => Exc.ok t
  | Exc.exn _ m => Exc.ok ("An error occurred during transcription: " ++ m)

/-- `create_prompt` (app.py lines 81-83): the fixed f-string template
with the requested word count embedded. -/
def create_prompt (length : Int) : String :=
  "You are a YouTube video summarizer. You will be taking the transcript text\nand summarizing the entire video and providing the important summary within "
    ++ toString length
    ++ " words. Please provide the summary of the text given here: "

/-- Environment of one `summarize_text` call: what
`GenerativeModel(...).generate_content(...).text` yields. -/
structure SummarizeEnv where
  api : Exc String
deriving DecidableEq, Repr

/-- Observable trace of one `summarize_text` call: the request string
sent to the generative service and the returned summary. -/
structure SummarizeTrace where
  request : String
  result : String
deriving DecidableEq, Repr

/-- `summarize_text` (app.py lines 85-91): send `prompt + text`; on any
exception return the inline summarization error string. -/
def summarize_text (env : SummarizeEnv) (text prompt : String) : SummarizeTrace :=
  { request := prompt ++ text,
    result :=
      match env.api with
      | Exc.ok r => r
      | Exc.exn _ m => "An error occurred during summarization: " ++ m }

/-- The structured object returned by the translatepy engine: the
translated text plus other metadata.  `str()` of it yields `result`. -/
structure TransResult where
  result : String
  sourceLang : String
deriving DecidableEq, Repr

/-- Python `str()` applied to a translatepy result object. -/
def pyStrTransResult (r : TransResult) : String := r.result

/-- Environment of one `translate_text` call: what
`translator.translate(text, target_language)` yields. -/
structure TranslateEnv where
  api : Exc TransResult
deriving DecidableEq, Repr

/-- `translate_text` (app.py lines 94-99): coerce the engine result via
`str(...)`; on any exception return the inline translation error string. -/
def translate_text (env : TranslateEnv) (text target_language : String) : String :=
  match env.api with
  | Exc.ok obj => pyStrTransResult obj
  | Exc.exn _ m => "An error occurred during translation: " ++ m

/-- The `ydl_opts` dictionary of `download_video` (app.py lines 26-31). -/
structure YdlOpts where
  format : String
  outtmpl : String
  merge_output_format : String
  noplaylist : Bool
deriving DecidableEq, Repr

/-- The yt-dlp options `download_video` constructs for a given temp
output name. -/
def download_video_opts (tmp : String) : YdlOpts :=
  { format := "bestvideo+bestaudio/best",
    outtmpl := tmp,
    merge_output_format := "webm",
    noplaylist := true }

/-- The literal parameters of the `st.slider` call in `main`
(app.py lines 115-118). -/
structure SliderConfig where
  min_value : Int
  max_value : Int
  value : Int
  step : Int
deriving DecidableEq, Repr

/-- The summary-length slider configuration in `main`. -/
def summary_length_slider : SliderConfig :=
  { min_value := 50, max_value := 500, value := 250, step := 10 }

/-- Oracles for the processing region of `main` (the `try` body,
app.py lines 146-183). -/
structure ProcEnv where
  extract : ExtractEnv
  transcribe : TranscribeEnv
  summarize : SummarizeEnv
  translate : TranslateEnv
deriving DecidableEq, Repr

/-- Observable trace of the processing region: each field is `some`
exactly when the pipeline reached the corresponding point, and `caught`
records the exception captured by the `except Exception` handler. -/
structure ProcTrace where
  audio_path : Option (List Char)
  transcript : Option String
  summarizeInput : Option String
  summarizeRequest : Option String
  summary : Option String
  translateInput : Option String
  translated : Option String
  caught : Option (String × String)
deriving DecidableEq, Repr

/-- The processing region of `main` given the video path `p`, the slider
value `n` and the selected target-language code `tgt`: extract audio,
transcribe, summarize with `create_prompt n`, translate the summary.
An exception from `extract_audio` is caught by `except Exception`. -/
def runProcessing (env : ProcEnv) (p : List Char) (n : Int) (tgt : String) : ProcTrace :=
  match (extract_audio env.extract p).result with
  | Exc.exn c m =>
    { audio_path := none, transcript := none, summarizeInput := none,
      summarizeRequest := none, summary := none, translateInput := none,
      translated := none, caught := some (c, m) }
  | Exc.ok ap =>
    if ap = [] then
      { audio_path := some ap, transcript := none, summarizeInput := none,
        summarizeRequest := none, summary := none, translateInput := none,
        translated := none, caught := none }
    else
      match transcribe_audio env.transcribe with
      | Exc.exn c m =>
        { audio_path := some ap, transcript := none, summarizeInput := none,
          summarizeRequest := none, summary := none, translateInput := none,
          translated := none, caught := some (c, m) }
      | Exc.ok t =>
        let s := summarize_text env.summarize t (create_prompt n)
        let tr := translate_text env.translate s.result tgt
        { audio_path := some ap, transcript := some t, summarizeInput := some t,
          summarizeRequest := some s.request, summary := some s.result,
          translateInput := some s.result, translated := some tr, caught := none }

/-- Result of the cleanup region (the `finally` block, app.py
lines 186-198): whether each artifact still exists, which deletion
failures were reported via `st.write`, and the exception (if any) that
escaped the cleanup region. -/
structure CleanupResult where
  videoExistsAfter : Bool
  audioExistsAfter : Bool
  reports : List String
  escalated : Option (String × String)
deriving DecidableEq, Repr

/-- Whether a deletion outcome is a raised `PermissionError` — the only
exception class the cleanup region's `except` clauses catch. -/
def isPermissionError : Exc Unit → Bool
  | Exc.exn c _ => c == "PermissionError"
  | Exc.ok _ => false

/-- The audio half of the cleanup region: `if audio_path and
os.path.exists(audio_path): try: os.remove(...) except PermissionError`. -/
def cleanup_audio_step (videoAfter : Bool) (audioSet audioExists : Bool)
    (removeAudio : Exc Unit) (reps : List String) : CleanupResult :=
  if audioSet && audioExists then
    match removeAudio with
    | Exc.ok _ =>
      { videoExistsAfter := videoAfter, audioExistsAfter := false,
        reports := reps, escalated := none }
    | Exc.exn c m =>
      if c = "PermissionError" then
        { videoExistsAfter := videoAfter, audioExistsAfter := true,
          reports := reps ++ ["Failed to delete audio file: " ++ m],
          escalated := none }
      else
        { videoExistsAfter := videoAfter, audioExistsAfter := true,
          reports := reps, escalated := some (c, m) }
  else
    { videoExistsAfter := videoAfter, audioExistsAfter := audioExists,
      reports := reps, escalated := none }

/-- The whole cleanup region: the video deletion attempt runs first; an
exception other than `PermissionError` escapes immediately, skipping the
audio deletion attempt. -/
def runCleanup (videoExists : Bool) (removeVideo : Exc Unit)
    (audioSet audioExists : Bool) (removeAudio : Exc Unit) : CleanupResult :=
  if videoExists then
    match removeVideo with
    | Exc.ok _ => cleanup_audio_step false audioSet audioExists removeAudio []
    | Exc.exn c m =>
      if c = "PermissionError" then
        cleanup_audio_step true audioSet audioExists removeAudio
          ["Failed to delete video file: " ++ m]
      else
        { videoExistsAfter := true, audioExistsAfter := audioExists,
          reports := [], escalated := some (c, m) }
  else
    cleanup_audio_step videoExists audioSet audioExists removeAudio []

/-- Oracles for a whole run of the `if video_path:` block of `main`:
the processing oracles plus the filesystem/deletion oracles seen by the
`finally` block. -/
structure MainEnv where
  proc : ProcEnv
  videoAtCleanup : Bool
  audioAtCleanup : Bool
  removeVideo : Exc Unit
  removeAudio : Exc Unit
deriving DecidableEq, Repr

/-- Result of a whole run: the processing trace, the cleanup result, and
the exception (if any) escaping `main` — only a non-`PermissionError`
deletion failure can escape, since the processing region's exceptions
are caught by `except Exception`. -/
structure MainResult where
  trace : ProcTrace
  cleanup : CleanupResult
  uncaught : Option (String × String)
deriving DecidableEq, Repr

/-- One run of the try/except/finally of `main` (app.py lines 146-198):
processing, then cleanup, which runs on the success path and on every
exception path out of the processing stages.  `audio_path` is non-`None`
at cleanup time exactly when extraction returned. -/
def runMain (env : MainEnv) (p : List Char) (n : Int) (tgt : String) : MainResult :=
  let tr := runProcessing env.proc p n tgt
  let cl := runCleanup env.videoAtCleanup env.removeVideo
    tr.audio_path.isSome env.audioAtCleanup env.removeAudio
  { trace := tr, cleanup := cl, uncaught := cl.escalated }

/-- A fully successful extraction environment, used as a sample input. -/
def okExtract : ExtractEnv :=
  { videoExists := true, clipOpen := Exc.ok (), writeAudio := Exc.ok () }

/-- A fully successful transcription environment, used as a sample input. -/
def okTranscribe : TranscribeEnv :=
  { openAudio := Exc.ok (), api := Exc.ok "the transcript" }

/-- A fully successful summarization environment, used as a sample input. -/
def okSummarize : SummarizeEnv := { api := Exc.ok "the summary" }

/-- A fully successful translation environment, used as a sample input. -/
def okTranslate : TranslateEnv :=
  { api := Exc.ok { result := "the translation", sourceLang := "en" } }

/-- A fully successful processing environment, used as a sample input. -/
def okProc : ProcEnv :=
  { extract := okExtract, transcribe := okTranscribe,
    summarize := okSummarize, translate := okTranslate }

/-- A processing environment whose transcription API call raises, used
as a sample input. -/
def errProc : ProcEnv :=
  { extract := okExtract,
    transcribe := { openAudio := Exc.ok (),
                    api := Exc.exn "APIConnectionError" "quota exceeded" },
    summarize := okSummarize, translate := okTranslate }

/-- The fuel argument of `pyReplaceF` is irrelevant once it reaches the
length of the subject string. -/
theorem pyReplaceF_fuel_eq :
    ∀ (f g : Nat) (old new s : List Char), s.length ≤ f → s.length ≤ g →
      pyReplaceF f old new s = pyReplaceF g old new s := by
  intro f
  induction f with
  | zero =>
    intro g old new s h1 _
    have hs : s = [] := List.length_eq_zero.mp (Nat.le_zero.mp h1)
    subst hs
    cases g <;> rfl
  | succ f ih =>
    intro g old new s h1 h2
    cases s with
    | nil => cases g <;> rfl
    | cons c rest =>
      cases g with
      | zero => simp at h2
      | succ g' =>
        show (if old ≠ [] ∧ old <+: (c :: rest) then
                new ++ pyReplaceF f old new ((c :: rest).drop old.length)
              else c :: pyReplaceF f old new rest)
            = (if old ≠ [] ∧ old <+: (c :: rest) then
                new ++ pyReplaceF g' old new ((c :: rest).drop old.length)
              else c :: pyReplaceF g' old new rest)
        by_cases hc : old ≠ [] ∧ old <+: (c :: rest)
        · rw [if_pos hc, if_pos hc]
          have hold : 1 ≤ old.length := by
            cases old with
            | nil => exact absurd rfl hc.1
            | cons _ _ => simp
          have hd : ((c :: rest).drop old.length).length ≤ f := by
            rw [List.length_drop]
            simp only [List.length_cons] at h1 ⊢
            omega
          have hd' : ((c :: rest).drop old.length).length ≤ g' := by
            rw [List.length_drop]
            simp only [List.length_cons] at h2 ⊢
            omega
          rw [ih g' old new _ hd hd']
        · rw [if_neg hc, if_neg hc]
          have hr : rest.length ≤ f := by
            simp only [List.length_cons] at h1
            omega
          have hr' : rest.length ≤ g' := by
            simp only [List.length_cons] at h2
            omega
          rw [ih g' old new rest hr hr']

/-- Unfolding equation of `pyReplace` on a cons cell. -/
theorem pyReplace_cons (c : Char) (rest old new : List Char) :
    pyReplace (c :: rest) old new =
      if old ≠ [] ∧ old <+: (c :: rest) then
        new ++ pyReplace ((c :: rest).drop old.length) old new
      else c :: pyReplace rest old new := by
  show (if old ≠ [] ∧ old <+: (c :: rest) then
          new ++ pyReplaceF rest.length old new ((c :: rest).drop old.length)
        else c :: pyReplaceF rest.length old new rest) = _
  by_cases hc : old ≠ [] ∧ old <+: (c :: rest)
  · rw [if_pos hc, if_pos hc]
    have hold : 1 ≤ old.length := by
      cases old with
      | nil => exact absurd rfl hc.1
      | cons _ _ => simp
    have hd : ((c :: rest).drop old.length).length ≤ rest.length := by
      rw [List.length_drop]
      simp only [List.length_cons]
      omega
    rw [pyReplaceF_fuel_eq rest.length ((c :: rest).drop old.length).length old new _ hd
      (Nat.le_refl _)]
    rfl
  · rw [if_neg hc, if_neg hc]
    rfl

/-- `pyReplace` on the empty string. -/
theorem pyReplace_nil (old new : List Char) : pyReplace [] old new = [] := rfl

/-- If the (nonempty) pattern occurs as a suffix of the subject and the
replacement is no longer than the pattern and is not a prefix of it,
then replacing changes the string.  This covers both branches of the
extension policy: `".mp3"` is shorter than `".webm"` and not a prefix of
it, and `".mp3"` has the length of `".mp4"` and is not a prefix of it. -/
theorem pyReplace_ne_self (old new : List Char) (hne : old ≠ [])
    (hlen : new.length ≤ old.length) (hnp : ¬ new <+: old) :
    ∀ s : List Char, old <:+ s → pyReplace s old new ≠ s := by
  intro s
  induction s with
  | nil =>
    intro hsuf
    exact absurd (List.suffix_nil.mp hsuf) hne
  | cons c rest ih =>
    intro hsuf heq
    rw [pyReplace_cons] at heq
    by_cases hp : old <+: (c :: rest)
    · rw [if_pos ⟨hne, hp⟩] at heq
      obtain ⟨t, ht⟩ := hp
      rw [← ht, List.drop_left] at heq
      have h1 : new <+: old ++ t := ⟨pyReplace t old new, heq⟩
      have h2 : old <+: old ++ t := List.prefix_append old t
      exact hnp (List.prefix_of_prefix_length_le h1 h2 hlen)
    · rw [if_neg (fun hc => hp hc.2)] at heq
      have hsuf' : old <:+ rest := by
        rcases List.suffix_cons_iff.mp hsuf with h | h
        · exact absurd (h ▸ List.prefix_refl old) hp
        · exact h
      exact ih hsuf' (List.cons.inj heq).2

/-- If the (nonempty) pattern occurs in `a ++ old` only as the final
suffix — no occurrence starts inside `a` — then replacing rewrites
exactly that suffix. -/
theorem pyReplace_append_self (old new : List Char) (hne : old ≠ []) :
    ∀ a : List Char, (∀ i, i < a.length → ¬ old <+: (a ++ old).drop i) →
      pyReplace (a ++ old) old new = a ++ new := by
  intro a
  induction a with
  | nil =>
    intro _
    cases old with
    | nil => exact absurd rfl hne
    | cons c t =>
      simp only [List.nil_append]
      rw [pyReplace_cons, if_pos ⟨hne, List.prefix_refl _⟩]
      rw [List.drop_length, pyReplace_nil, List.append_nil]
  | cons c a' ih =>
    intro h
    have h0 : ¬ old <+: (c :: (a' ++ old)) := by
      have := h 0 (by simp)
      simpa using this
    rw [List.cons_append, pyReplace_cons, if_neg (fun hc => h0 hc.2)]
    rw [ih (fun i hi => by
      have := h (i + 1) (by simp only [List.length_cons]; omega)
      simpa [List.cons_append] using this)]
    rw [List.cons_append]

/-- Replacing with a nonempty replacement never empties a nonempty
string. -/
theorem pyReplace_ne_nil (old new : List Char) (hnew : new ≠ []) :
    ∀ s : List Char, s ≠ [] → pyReplace s old new ≠ [] := by
  intro s hs
  cases s with
  | nil => exact absurd rfl hs
  | cons c rest =>
    rw [pyReplace_cons]
    by_cases hc : old ≠ [] ∧ old <+: (c :: rest)
    · rw [if_pos hc]
      intro he
      exact hnew (List.append_eq_nil.mp he).1
    · rw [if_neg hc]
      simp

/-- A path ending in `".mp4"` cannot also end in `".webm"` (the final
characters differ), so the `elif` branch of the policy is reached on
exactly the paths the claim describes. -/
theorem webm_not_suffix_of_mp4 (a : List Char) : ¬ webm <:+ (a ++ mp4) := by
  rintro ⟨t, ht⟩
  have h := congrArg List.reverse ht
  rw [List.reverse_append, List.reverse_append] at h
  rw [(by decide : webm.reverse = 'm' :: 'b' :: 'e' :: 'w' :: '.' :: []),
      (by decide : mp4.reverse = '4' :: 'p' :: 'm' :: '.' :: [])] at h
  simp only [List.cons_append] at h
  injection h with h1 _
  exact absurd h1 (by decide)

/-- The destination audio path is never the empty string. -/
theorem audioPathFor_ne_nil (p : List Char) : audioPathFor p ≠ [] := by
  unfold audioPathFor
  by_cases h1 : webm <:+ p
  · rw [if_pos h1]
    apply pyReplace_ne_nil webm mp3 (by decide)
    intro hp
    rw [hp] at h1
    exact absurd (List.suffix_nil.mp h1) (by decide)
  · rw [if_neg h1]
    by_cases h2 : mp4 <:+ p
    · rw [if_pos h2]
      apply pyReplace_ne_nil mp4 mp3 (by decide)
      intro hp
      rw [hp] at h2
      exact absurd (List.suffix_nil.mp h2) (by decide)
    · rw [if_neg h2]
      intro he
      exact absurd (List.append_eq_nil.mp he).2 (by decide)

/-- C2 (amended): for every video path that passes the existence check,
`extract_audio` chooses the destination audio path by a three-way policy
on the extension: a path of the form `a ++ ".webm"` in which `".webm"`
occurs only as the suffix becomes `a ++ ".mp3"` (the code rewrites every
occurrence of `".webm"`, which coincides with suffix replacement in that
case); likewise a path `a ++ ".mp4"` with `".mp4"` occurring only as the
suffix becomes `a ++ ".mp3"`; any other path gets `".mp3"` appended with
the existing extension kept. -/
theorem extract_audio_extension_policy :
    (∀ a : List Char, (∀ i, i < a.length → ¬ webm <+: (a ++ webm).drop i) →
        audioPathFor (a ++ webm) = a ++ mp3) ∧
    (∀ a : List Char, (∀ i, i < a.length → ¬ mp4 <+: (a ++ mp4).drop i) →
        audioPathFor (a ++ mp4) = a ++ mp3) ∧
    (∀ p : List Char, ¬ webm <:+ p → ¬ mp4 <:+ p → audioPathFor p = p ++ mp3) := by
  refine ⟨?_, ?_, ?_⟩
  · intro a h
    unfold audioPathFor
    rw [if_pos (List.suffix_append a webm)]
    exact pyReplace_append_self webm mp3 (by decide) a h
  · intro a h
    unfold audioPathFor
    rw [if_neg (webm_not_suffix_of_mp4 a), if_pos (List.suffix_append a mp4)]
    exact pyReplace_append_self mp4 mp3 (by decide) a h
  · intro p h1 h2
    unfold audioPathFor
    rw [if_neg h1, if_neg h2]

/-- C2 (counterexample to the claim as stated): on `"a.webm.webm"` the
code replaces every occurrence of `".webm"` and yields `"a.mp3.mp3"`,
while replacing only the `".webm"` suffix would yield `"a.webm.mp3"`. -/
theorem extract_audio_extension_policy_cex :
    audioPathFor "a.webm.webm".data = "a.mp3.mp3".data ∧
    audioPathSpecC2 "a.webm.webm".data = "a.webm.mp3".data ∧
    audioPathFor "a.webm.webm".data ≠ audioPathSpecC2 "a.webm.webm".data := by
  decide

/-- C2 (witness): the amended policy applied to `"clip.webm"`. -/
theorem extract_audio_extension_policy_witness :
    audioPathFor ("clip".data ++ webm) = "clip".data ++ mp3 :=
  extract_audio_extension_policy.1 "clip".data (by decide)

/-- C3: when the video path does not exist, `extract_audio` fails with
`FileNotFoundError` and the downstream decode is never invoked:
`VideoFileClip` is not opened and no audio file is written. -/
theorem extract_audio_missing_video (env : ExtractEnv) (p : List Char)
    (h : env.videoExists = false) :
    (extract_audio env p).result =
        Exc.exn "FileNotFoundError" ("Video file not found: " ++ String.mk p) ∧
    (extract_audio env p).clipOpened = false ∧
    (extract_audio env p).audioWritten = false := by
  unfold extract_audio
  rw [h, if_pos rfl]
  exact ⟨rfl, rfl, rfl⟩

/-- C3 (witness): a concrete missing-file extraction. -/
theorem extract_audio_missing_video_witness :
    (extract_audio { videoExists := false, clipOpen := Exc.ok (), writeAudio := Exc.ok () }
        "x.mp4".data).result =
        Exc.exn "FileNotFoundError" ("Video file not found: " ++ String.mk "x.mp4".data) ∧
    (extract_audio { videoExists := false, clipOpen := Exc.ok (), writeAudio := Exc.ok () }
        "x.mp4".data).clipOpened = false ∧
    (extract_audio { videoExists := false, clipOpen := Exc.ok (), writeAudio := Exc.ok () }
        "x.mp4".data).audioWritten = false :=
  extract_audio_missing_video
    { videoExists := false, clipOpen := Exc.ok (), writeAudio := Exc.ok () }
    "x.mp4".data rfl

/-- C9: the audio path produced by `extract_audio` is never equal to the
input video path — each of the three extension-policy branches yields a
strictly different string — so audio extraction never overwrites the
video artifact it reads from. -/
theorem audio_path_ne_video_path (p : List Char) : audioPathFor p ≠ p := by
  unfold audioPathFor
  by_cases h1 : webm <:+ p
  · rw [if_pos h1]
    exact pyReplace_ne_self webm mp3 (by decide) (by decide) (by decide) p h1
  · rw [if_neg h1]
    by_cases h2 : mp4 <:+ p
    · rw [if_pos h2]
      exact pyReplace_ne_self mp4 mp3 (by decide) (by decide) (by decide) p h2
    · rw [if_neg h2]
      intro he
      have hl := congrArg List.length he
      rw [List.length_append] at hl
      have hm : mp3.length = 4 := by decide
      omega

/-- C1: when the external transcription call raises with message `m`
(after extraction succeeded), `transcribe_audio` does not raise but
returns `"An error occurred during transcription: " ++ m`, and `main`
passes that string unchanged as the transcript/text argument of
`summarize_text` (so the request is `create_prompt n` followed by the
error string) and then continues into `translate_text` with the
resulting summary, never flagging the string as invalid. -/
theorem transcription_error_flows_downstream (env : ProcEnv) (p : List Char) (n : Int)
    (tgt : String) (c m : String)
    (h1 : env.extract.videoExists = true)
    (h2 : env.extract.clipOpen = Exc.ok ())
    (h3 : env.extract.writeAudio = Exc.ok ())
    (h4 : env.transcribe.openAudio = Exc.ok ())
    (h5 : env.transcribe.api = Exc.exn c m) :
    transcribe_audio env.transcribe
        = Exc.ok ("An error occurred during transcription: " ++ m) ∧
    (runProcessing env p n tgt).transcript
        = some ("An error occurred during transcription: " ++ m) ∧
    (runProcessing env p n tgt).summarizeInput
        = some ("An error occurred during transcription: " ++ m) ∧
    (runProcessing env p n tgt).summarizeRequest
        = some (create_prompt n ++ ("An error occurred during transcription: " ++ m)) ∧
    (runProcessing env p n tgt).translateInput
        = some ((summarize_text env.summarize
            ("An error occurred during transcription: " ++ m) (create_prompt n)).result) ∧
    (runProcessing env p n tgt).caught = none := by
  have htr : transcribe_audio env.transcribe
      = Exc.ok ("An error occurred during transcription: " ++ m) := by
    unfold transcribe_audio transcribe_body
    rw [h4, h5]
  have hex : (extract_audio env.extract p).result = Exc.ok (audioPathFor p) := by
    unfold extract_audio
    rw [h1, if_neg (by decide : ¬ (true = false)), h2, h3]
  refine ⟨htr, ?_⟩
  simp only [runProcessing, hex, htr, if_neg (audioPathFor_ne_nil p)]
  exact ⟨trivial, trivial, rfl, trivial, trivial⟩

/-- C1 (witness): a concrete run whose transcription call raises. -/
theorem transcription_error_flows_downstream_witness :
    transcribe_audio errProc.transcribe
        = Exc.ok ("An error occurred during transcription: " ++ "quota exceeded") ∧
    (runProcessing errProc "v.mp4".data 250 "hi").transcript
        = some ("An error occurred during transcription: " ++ "quota exceeded") ∧
    (runProcessing errProc "v.mp4".data 250 "hi").summarizeInput
        = some ("An error occurred during transcription: " ++ "quota exceeded") ∧
    (runProcessing errProc "v.mp4".data 250 "hi").summarizeRequest
        = some (create_prompt 250 ++ ("An error occurred during transcription: " ++ "quota exceeded")) ∧
    (runProcessing errProc "v.mp4".data 250 "hi").translateInput
        = some ((summarize_text errProc.summarize
            ("An error occurred during transcription: " ++ "quota exceeded")
            (create_prompt 250)).result) ∧
    (runProcessing errProc "v.mp4".data 250 "hi").caught = none :=
  transcription_error_flows_downstream errProc "v.mp4".data 250 "hi"
    "APIConnectionError" "quota exceeded" rfl rfl rfl rfl rfl

/-- C6: for every integer word count `N` — with no range check anywhere
in the summarizer, so also for `N` outside `[50, 500]` — the
summarization request is exactly the fixed instruction template with `N`
embedded, prefixed to the transcript text; the `[50, 500]` bound exists
only in the input slider's configuration. -/
theorem summarization_request_template (n : Int) (text : String) (env : SummarizeEnv) :
    (summarize_text env text (create_prompt n)).request =
      "You are a YouTube video summarizer. You will be taking the transcript text\nand summarizing the entire video and providing the important summary within "
        ++ toString n
        ++ " words. Please provide the summary of the text given here: " ++ text ∧
    summary_length_slider.min_value = 50 ∧ summary_length_slider.max_value = 500 :=
  ⟨rfl, rfl, rfl⟩

/-- C7: `translate_text` always returns a string: on success the
engine's structured result object is coerced with `str()` (modelled by
`pyStrTransResult`), and on failure an inline error string is returned. -/
theorem translate_text_returns_string (env : TranslateEnv) (text tgt : String) :
    (∀ obj, env.api = Exc.ok obj → translate_text env text tgt = pyStrTransResult obj) ∧
    (∀ c m, env.api = Exc.exn c m →
        translate_text env text tgt = "An error occurred during translation: " ++ m) := by
  constructor
  · intro obj h
    unfold translate_text
    rw [h]
  · intro c m h
    unfold translate_text
    rw [h]

/-- C7 (witness): a concrete structured engine result is coerced to its
string rendering. -/
theorem translate_text_returns_string_witness :
    translate_text { api := Exc.ok { result := "hola", sourceLang := "en" } } "hello" "es"
      = pyStrTransResult { result := "hola", sourceLang := "en" } :=
  (translate_text_returns_string
      { api := Exc.ok { result := "hola", sourceLang := "en" } } "hello" "es").1
    { result := "hola", sourceLang := "en" } rfl

/-- C8: for every URL run, `download_video` configures the external
downloader with format `"bestvideo+bestaudio/best"` (best available
combined video+audio stream), merges separated streams into a single
container (`merge_output_format`), and disables playlist expansion
(`noplaylist = true`), downloading a single item only. -/
theorem download_video_options (tmp : String) :
    (download_video_opts tmp).format = "bestvideo+bestaudio/best" ∧
    (download_video_opts tmp).merge_output_format = "webm" ∧
    (download_video_opts tmp).noplaylist = true ∧
    (download_video_opts tmp).outtmpl = tmp :=
  ⟨rfl, rfl, rfl, rfl⟩

/-- C10: `transcribe_audio` is total — it returns a string (never an
escaping exception) for every environment, and in particular a missing
or unopenable audio file, which raises inside the guarded region, yields
the inline transcription error string rather than an exception. -/
theorem transcribe_audio_total (env : TranscribeEnv) :
    (∃ s : String, transcribe_audio env = Exc.ok s) ∧
    (∀ c m, env.openAudio = Exc.exn c m →
        transcribe_audio env = Exc.ok ("An error occurred during transcription: " ++ m)) := by
  constructor
  · cases h : transcribe_body env with
    | ok t => exact ⟨t, by unfold transcribe_audio; rw [h]⟩
    | exn c m =>
      exact ⟨"An error occurred during transcription: " ++ m, by
        unfold transcribe_audio; rw [h]⟩
  · intro c m h
    unfold transcribe_audio transcribe_body
    rw [h]

/-- C10 (witness): a concrete missing audio file yields the inline
error string. -/
theorem transcribe_audio_total_witness :
    transcribe_audio { openAudio := Exc.exn "FileNotFoundError" "no such file",
                       api := Exc.ok "t" }
      = Exc.ok ("An error occurred during transcription: " ++ "no such file") :=
  (transcribe_audio_total
      { openAudio := Exc.exn "FileNotFoundError" "no such file", api := Exc.ok "t" }).2
    "FileNotFoundError" "no such file" rfl

/-- When every deletion failure is a `PermissionError`, the cleanup
region never escalates and each artifact survives exactly when it
existed and its deletion raised a `PermissionError`. -/
theorem runCleanup_spec (vex : Bool) (rv : Exc Unit) (aset aex : Bool) (ra : Exc Unit)
    (hv : ∀ c m, rv = Exc.exn c m → c = "PermissionError")
    (ha : ∀ c m, ra = Exc.exn c m → c = "PermissionError")
    (hax : aset = false → aex = false) :
    (runCleanup vex rv aset aex ra).escalated = none ∧
    (runCleanup vex rv aset aex ra).videoExistsAfter = (vex && isPermissionError rv) ∧
    (runCleanup vex rv aset aex ra).audioExistsAfter = (aex && isPermissionError ra) := by
  rcases rv with u | ⟨cv, mv⟩ <;> rcases ra with u' | ⟨ca, ma⟩
  · clear hv ha
    cases vex <;> cases aset <;> cases aex <;>
      simp_all [runCleanup, cleanup_audio_step, isPermissionError]
  · have hca := ha ca ma rfl
    subst hca
    clear hv ha
    cases vex <;> cases aset <;> cases aex <;>
      simp_all [runCleanup, cleanup_audio_step, isPermissionError]
  · have hcv := hv cv mv rfl
    subst hcv
    clear hv ha
    cases vex <;> cases aset <;> cases aex <;>
      simp_all [runCleanup, cleanup_audio_step, isPermissionError]
  · have hcv := hv cv mv rfl
    subst hcv
    have hca := ha ca ma rfl
    subst hca
    clear hv ha
    cases vex <;> cases aset <;> cases aex <;>
      simp_all [runCleanup, cleanup_audio_step, isPermissionError]

/-- C4 (amended): for every run, provided every deletion failure is a
`PermissionError` (the only class the cleanup handlers catch) and no
audio artifact is on disk when extraction produced none, the `finally`
region deletes the video and audio temp artifacts (each when it still
exists) on both the success path and every exception path, nothing
escapes the run, and afterwards an artifact exists iff its deletion
raised a reported `PermissionError`.  (Without that proviso the claim
fails: a non-`PermissionError` raised while deleting the video escapes
and skips the audio deletion — see the counterexample.) -/
theorem cleanup_removes_artifacts (env : MainEnv) (p : List Char) (n : Int) (tgt : String)
    (hv : ∀ c m, env.removeVideo = Exc.exn c m → c = "PermissionError")
    (ha : ∀ c m, env.removeAudio = Exc.exn c m → c = "PermissionError")
    (hnc : (runProcessing env.proc p n tgt).audio_path.isSome = false →
        env.audioAtCleanup = false) :
    (runMain env p n tgt).uncaught = none ∧
    (runMain env p n tgt).cleanup.videoExistsAfter
        = (env.videoAtCleanup && isPermissionError env.removeVideo) ∧
    (runMain env p n tgt).cleanup.audioExistsAfter
        = (env.audioAtCleanup && isPermissionError env.removeAudio) :=
  runCleanup_spec env.videoAtCleanup env.removeVideo
    (runProcessing env.proc p n tgt).audio_path.isSome env.audioAtCleanup env.removeAudio
    hv ha hnc

/-- C4 (counterexample to the claim as stated): in a run that created
both artifacts, a non-`PermissionError` raised while deleting the video
leaves the audio artifact on disk although its deletion never reported
an error (nothing is reported at all), and the exception escapes the
run. -/
theorem cleanup_removes_artifacts_cex :
    (runMain { proc := okProc, videoAtCleanup := true, audioAtCleanup := true,
               removeVideo := Exc.exn "OSError" "device busy", removeAudio := Exc.ok () }
        "v.mp4".data 250 "hi").trace.audio_path.isSome = true ∧
    (runMain { proc := okProc, videoAtCleanup := true, audioAtCleanup := true,
               removeVideo := Exc.exn "OSError" "device busy", removeAudio := Exc.ok () }
        "v.mp4".data 250 "hi").cleanup.audioExistsAfter = true ∧
    (runMain { proc := okProc, videoAtCleanup := true, audioAtCleanup := true,
               removeVideo := Exc.exn "OSError" "device busy", removeAudio := Exc.ok () }
        "v.mp4".data 250 "hi").cleanup.reports = [] ∧
    (runMain { proc := okProc, videoAtCleanup := true, audioAtCleanup := true,
               removeVideo := Exc.exn "OSError" "device busy", removeAudio := Exc.ok () }
        "v.mp4".data 250 "hi").uncaught = some ("OSError", "device busy") := by
  decide

/-- C4 (witness): a fully successful run deletes both artifacts. -/
theorem cleanup_removes_artifacts_witness :
    (runMain { proc := okProc, videoAtCleanup := true, audioAtCleanup := true,
               removeVideo := Exc.ok (), removeAudio := Exc.ok () }
        "v.mp4".data 250 "hi").uncaught = none ∧
    (runMain { proc := okProc, videoAtCleanup := true, audioAtCleanup := true,
               removeVideo := Exc.ok (), removeAudio := Exc.ok () }
        "v.mp4".data 250 "hi").cleanup.videoExistsAfter
        = (true && isPermissionError (Exc.ok ())) ∧
    (runMain { proc := okProc, videoAtCleanup := true, audioAtCleanup := true,
               removeVideo := Exc.ok (), removeAudio := Exc.ok () }
        "v.mp4".data 250 "hi").cleanup.audioExistsAfter
        = (true && isPermissionError (Exc.ok ())) :=
  cleanup_removes_artifacts
    { proc := okProc, videoAtCleanup := true, audioAtCleanup := true,
      removeVideo := Exc.ok (), removeAudio := Exc.ok () }
    "v.mp4".data 250 "hi"
    (fun c m h => by cases h) (fun c m h => by cases h) (by decide)

/-- Whatever the audio deletion attempt does, the reports accumulated
before it (the video deletion report) are preserved. -/
theorem cleanup_audio_step_reports_mono (videoAfter aset aex : Bool) (ra : Exc Unit)
    (reps : List String) (s : String) (hs : s ∈ reps) :
    s ∈ (cleanup_audio_step videoAfter aset aex ra reps).reports := by
  rcases ra with u | ⟨c, m⟩
  · cases aset <;> cases aex <;> simpa [cleanup_audio_step] using hs
  · by_cases hc : c = "PermissionError"
    · subst hc
      cases aset <;> cases aex <;>
        simp_all [cleanup_audio_step, List.mem_append]
    · cases aset <;> cases aex <;>
        simp_all [cleanup_audio_step, List.mem_append]

/-- C5 (amended): a `PermissionError` raised while deleting the video or
audio temp artifact is reported to the user and never escalates out of
the run — the video report regardless of what the audio deletion then
does, the audio report whenever its deletion attempt is reached (i.e.
the video deletion did not itself raise a non-`PermissionError`); but
the cleanup region swallows only `PermissionError` — a deletion failure
of any other exception class, while deleting the video or while deleting
the audio, escapes the cleanup region as a fatal error. -/
theorem cleanup_error_reporting (vex : Bool) (rv : Exc Unit) (aset aex : Bool) (ra : Exc Unit) :
    (∀ m, vex = true → rv = Exc.exn "PermissionError" m →
      ("Failed to delete video file: " ++ m) ∈ (runCleanup vex rv aset aex ra).reports) ∧
    ((∀ c m, rv = Exc.exn c m → c = "PermissionError") →
      ∀ m, aset = true → aex = true → ra = Exc.exn "PermissionError" m →
        ("Failed to delete audio file: " ++ m) ∈ (runCleanup vex rv aset aex ra).reports) ∧
    ((∀ c m, rv = Exc.exn c m → c = "PermissionError") →
     (∀ c m, ra = Exc.exn c m → c = "PermissionError") →
      (runCleanup vex rv aset aex ra).escalated = none) ∧
    (∀ c m, c ≠ "PermissionError" → vex = true → rv = Exc.exn c m →
      (runCleanup vex rv aset aex ra).escalated = some (c, m)) ∧
    (∀ c m, c ≠ "PermissionError" →
      (∀ c' m', rv = Exc.exn c' m' → c' = "PermissionError") →
      aset = true → aex = true → ra = Exc.exn c m →
      (runCleanup vex rv aset aex ra).escalated = some (c, m)) := by
  refine ⟨?_, ?_, ?_, ?_, ?_⟩
  · intro m hvex hrv
    subst hvex
    subst hrv
    show ("Failed to delete video file: " ++ m) ∈
      (cleanup_audio_step true aset aex ra ["Failed to delete video file: " ++ m]).reports
    exact cleanup_audio_step_reports_mono true aset aex ra _ _ (by simp)
  · intro hv m hset hex hra
    subst hset
    subst hex
    subst hra
    rcases rv with u | ⟨cv, mv⟩
    · clear hv
      cases vex <;> simp [runCleanup, cleanup_audio_step, List.mem_append]
    · have hcv := hv cv mv rfl
      subst hcv
      clear hv
      cases vex <;> simp [runCleanup, cleanup_audio_step, List.mem_append]
  · intro hv ha
    rcases rv with u | ⟨cv, mv⟩ <;> rcases ra with u' | ⟨ca, ma⟩
    · clear hv ha
      cases vex <;> cases aset <;> cases aex <;>
        simp_all [runCleanup, cleanup_audio_step]
    · have hca := ha ca ma rfl
      subst hca
      clear hv ha
      cases vex <;> cases aset <;> cases aex <;>
        simp_all [runCleanup, cleanup_audio_step]
    · have hcv := hv cv mv rfl
      subst hcv
      clear hv ha
      cases vex <;> cases aset <;> cases aex <;>
        simp_all [runCleanup, cleanup_audio_step]
    · have hcv := hv cv mv rfl
      subst hcv
      have hca := ha ca ma rfl
      subst hca
      clear hv ha
      cases vex <;> cases aset <;> cases aex <;>
        simp_all [runCleanup, cleanup_audio_step]
  · intro c m hc hvx hrv
    subst hvx
    subst hrv
    simp [runCleanup, hc]
  · intro c m hc hv hset hex hra
    subst hset
    subst hex
    subst hra
    rcases rv with u | ⟨cv, mv⟩
    · clear hv
      cases vex <;> simp [runCleanup, cleanup_audio_step, hc]
    · have hcv := hv cv mv rfl
      subst hcv
      clear hv
      cases vex <;> simp [runCleanup, cleanup_audio_step, hc]

/-- C5 (counterexample to the claim as stated): an `IsADirectoryError`
raised while deleting the video artifact is not reported and escalates
out of the cleanup region. -/
theorem cleanup_error_reporting_cex :
    (runCleanup true (Exc.exn "IsADirectoryError" "video path is a directory") false false
        (Exc.ok ())).escalated = some ("IsADirectoryError", "video path is a directory") ∧
    (runCleanup true (Exc.exn "IsADirectoryError" "video path is a directory") false false
        (Exc.ok ())).reports = [] := by
  decide

/-- C5 (witness): a concrete mixed run — a `PermissionError` while
deleting the video is reported, while an `OSError` raised by the audio
deletion afterwards escapes the cleanup region. -/
theorem cleanup_error_reporting_witness :
    ("Failed to delete video file: " ++ "locked")
        ∈ (runCleanup true (Exc.exn "PermissionError" "locked") true true
            (Exc.exn "OSError" "audio busy")).reports ∧
    (runCleanup true (Exc.exn "PermissionError" "locked") true true
        (Exc.exn "OSError" "audio busy")).escalated = some ("OSError", "audio busy") :=
  ⟨(cleanup_error_reporting true (Exc.exn "PermissionError" "locked") true true
        (Exc.exn "OSError" "audio busy")).1 "locked" rfl rfl,
   (cleanup_error_reporting true (Exc.exn "PermissionError" "locked") true true
        (Exc.exn "OSError" "audio busy")).2.2.2.2 "OSError" "audio busy" (by decide)
      (fun c' m' h => by cases h; rfl) rfl rfl rfl⟩

